import Mathlib

/-!
Verification of the cost-simulation engine of the electricity-tariff
simulator (`src/simulacion/costes.py`).

The embedding models the consumption records, the tariff catalog, the
period classifier `_clasificar_periodo`, the zero-safe percentage helper
`_safe_pct`, and the two pipelines `calcular_costes_anuales_por_tarifa`
and `calcular_mejor_tarifa_por_mes`.  Numeric values are rationals;
pandas Series/DataFrame columns become Lean lists; a raised `ValueError`
(or an attribute access on a missing best row) becomes `none`.
-/

namespace Tarifas

/-- The four billing periods ("punta"/"llano"/"valle" strings in the
source become a closed enumeration). -/
inductive Periodo : Type where
  | punta_LV : Periodo
  | llano_LV : Periodo
  | valle_LV : Periodo
  | valle_SD : Periodo
deriving DecidableEq

/-- One hourly consumption record: the fields of `consumo_df` the engine
reads (`timestamp.dt.year/month/hour`, `es_fin_semana`, `kwh`). -/
structure Registro : Type where
  anio : Nat
  mes : Nat
  hora : Nat
  es_fin_semana : Bool
  kwh : ℚ
deriving DecidableEq

/-- One row of `tarifas_df`: provider and plan names, the four per-kWh
unit prices and the two monthly fixed power charges. -/
structure Tarifa : Type where
  comercializadora : String
  tarifa : String
  punta_LV : ℚ
  llano_LV : ℚ
  valle_LV : ℚ
  valle_SD : ℚ
  potencia_mes_valle : ℚ
  potencia_mes_punta_llano : ℚ
deriving DecidableEq

/-- Embeds `_clasificar_periodo` for a single record.  The source builds
an all-NA series and assigns the masks in order (weekend, then weekday
hour < 8, then the weekday peak windows, then "still NA" weekday rows);
the sequential `let` bindings reproduce that last-assignment-wins
update, and `none` is a row the masks left unassigned. -/
def clasificarPeriodoOpt (hora : Nat) (finSemana : Bool) : Option Periodo :=
  let p : Option Periodo := none
  let p : Option Periodo := if finSemana then some Periodo.valle_SD else p
  let p : Option Periodo :=
    if finSemana = false ∧ hora < 8 then some Periodo.valle_LV else p
  let p : Option Periodo :=
    if finSemana = false ∧ ((10 ≤ hora ∧ hora < 14) ∨ (18 ≤ hora ∧ hora < 22)) then
      some Periodo.punta_LV
    else p
  let p : Option Periodo :=
    if finSemana = false ∧ p = none then some Periodo.llano_LV else p
  p

/-- Modelled from the spec: the priority rule of §4.1 (weekend, then
hour ∈ [0,8), then hour ∈ [10,14) ∪ [18,22), else mid) as a direct
if-then-else chain, to be compared with `clasificarPeriodoOpt`. -/
def clasificarSpec (hora : Nat) (finSemana : Bool) : Periodo :=
  if finSemana then Periodo.valle_SD
  else if hora < 8 then Periodo.valle_LV
  else if (10 ≤ hora ∧ hora < 14) ∨ (18 ≤ hora ∧ hora < 22) then Periodo.punta_LV
  else Periodo.llano_LV

/-- Embeds the batch behaviour of `_clasificar_periodo`: one period per
input row, in input order; `none` is the raised
`ValueError("Error en la asignación de periodos horarios.")` when some
row stays unassigned. -/
def clasificarPeriodoLista (rs : List Registro) : Option (List Periodo) :=
  rs.mapM (fun r => clasificarPeriodoOpt r.hora r.es_fin_semana)

/-- The `df["periodo"] = _clasificar_periodo(...)` step: each record
paired with its period label. -/
def clasificarRegistros (rs : List Registro) : Option (List (Registro × Periodo)) :=
  (clasificarPeriodoLista rs).map (fun ps => rs.zip ps)

/-- Embeds `_safe_pct`: percentage with the zero-denominator-yields-0
policy. -/
def safePct (parte total : ℚ) : ℚ :=
  if total = 0 then 0 else parte / total * 100

/-- Embeds `df.groupby("periodo")["kwh"].sum().to_dict()` followed by
`.get(p, 0.0)`: the kWh total of one period over a classified window. -/
def kwhPorPeriodo (xs : List (Registro × Periodo)) (p : Periodo) : ℚ :=
  xs.foldr (fun x acc => if x.2 = p then x.1.kwh + acc else acc) 0

/-- Embeds `pandas.Series.max` over a cost column (nonempty in every
use; `0` stands for the NaN a reduction of an empty column would give). -/
def maxQ : List ℚ → ℚ
  | [] => 0
  | x :: l => l.foldl max x

/-- Minimum of a list of costs, same conventions as `maxQ`. -/
def minQ : List ℚ → ℚ
  | [] => 0
  | x :: l => l.foldl min x

/-- Embeds `pandas.Series.median`: sort ascending, take the middle value
(odd length) or the mean of the two middle values (even length). -/
def medianaQ (xs : List ℚ) : ℚ :=
  let s := List.insertionSort (· ≤ ·) xs
  let n := s.length
  if n = 0 then 0
  else if n % 2 = 1 then s.getD (n / 2) 0
  else (s.getD (n / 2 - 1) 0 + s.getD (n / 2) 0) / 2

/-- The seven columns the annual loop body appends to `resultados` for
one tariff, before the KPI columns are added. -/
structure FilaAnualBase : Type where
  comercializadora : String
  tarifa : String
  kwh_anuales : ℚ
  coste_energia_anual : ℚ
  coste_potencia_anual : ℚ
  coste_total_anual : ℚ
  coste_medio_eur_kwh : ℚ
deriving DecidableEq

/-- A full row of the annual ranking table: the base columns plus the
columns added by `_anadir_kpis_ahorro`, `_anadir_pct_energia_potencia`
and `_anadir_distribucion_consumo`. -/
structure FilaAnual extends FilaAnualBase where
  ref_mediana_coste_total_anual : ℚ
  ref_peor_coste_total_anual : ℚ
  ahorro_vs_mediana_eur_anual : ℚ
  ahorro_vs_peor_eur_anual : ℚ
  ahorro_vs_mediana_pct_anual : ℚ
  ahorro_vs_peor_pct_anual : ℚ
  pct_coste_energia_anual : ℚ
  pct_coste_potencia_anual : ℚ
  kwh_punta_LV : ℚ
  kwh_llano_LV : ℚ
  kwh_valle_LV : ℚ
  kwh_valle_SD : ℚ
  pct_kwh_punta_LV : ℚ
  pct_kwh_llano_LV : ℚ
  pct_kwh_valle_LV : ℚ
  pct_kwh_valle_SD : ℚ
deriving DecidableEq

/-- Body of the annual per-tariff loop: variable energy cost over the
four period totals, fixed power cost (monthly charge × kW × 12), their
sum, and the zero-guarded average unit cost. -/
def filaAnualDe (kwhPunta kwhLlano kwhValleLV kwhValleSD totalKwh : ℚ)
    (potValle potPuntaLlano : ℚ) (t : Tarifa) : FilaAnualBase :=
  let costeEnergia :=
    kwhPunta * t.punta_LV + kwhLlano * t.llano_LV
      + kwhValleLV * t.valle_LV + kwhValleSD * t.valle_SD
  let costePotencia :=
    t.potencia_mes_valle * potValle * 12
      + t.potencia_mes_punta_llano * potPuntaLlano * 12
  let total := costeEnergia + costePotencia
  let costeMedio := if 0 < totalKwh then total / totalKwh else 0
  { comercializadora := t.comercializadora
    tarifa := t.tarifa
    kwh_anuales := totalKwh
    coste_energia_anual := costeEnergia
    coste_potencia_anual := costePotencia
    coste_total_anual := total
    coste_medio_eur_kwh := costeMedio }

/-- Model of `res.sort_values("coste_total_anual")`.  pandas' default
`kind="quicksort"` only guarantees a permutation ordered by the key (it
is documented as non-stable); we model it with `insertionSort`, one
admissible such permutation, and no confirmed theorem below depends on
the order of tied rows. -/
def ordenarPorCosteTotal (l : List FilaAnualBase) : List FilaAnualBase :=
  List.insertionSort (fun a b => a.coste_total_anual ≤ b.coste_total_anual) l

/-- The KPI stages of the annual pipeline applied to one sorted base
row: `_anadir_kpis_ahorro` (median/worst references and savings),
`_anadir_pct_energia_potencia`, and `_anadir_distribucion_consumo`
(identical across rows). -/
def anadirKpisAnual (mediana peor : ℚ)
    (kwhPunta kwhLlano kwhValleLV kwhValleSD totalKwh : ℚ)
    (b : FilaAnualBase) : FilaAnual :=
  { toFilaAnualBase := b
    ref_mediana_coste_total_anual := mediana
    ref_peor_coste_total_anual := peor
    ahorro_vs_mediana_eur_anual := mediana - b.coste_total_anual
    ahorro_vs_peor_eur_anual := peor - b.coste_total_anual
    ahorro_vs_mediana_pct_anual := safePct (mediana - b.coste_total_anual) mediana
    ahorro_vs_peor_pct_anual := safePct (peor - b.coste_total_anual) peor
    pct_coste_energia_anual := safePct b.coste_energia_anual b.coste_total_anual
    pct_coste_potencia_anual := safePct b.coste_potencia_anual b.coste_total_anual
    kwh_punta_LV := kwhPunta
    kwh_llano_LV := kwhLlano
    kwh_valle_LV := kwhValleLV
    kwh_valle_SD := kwhValleSD
    pct_kwh_punta_LV := safePct kwhPunta totalKwh
    pct_kwh_llano_LV := safePct kwhLlano totalKwh
    pct_kwh_valle_LV := safePct kwhValleLV totalKwh
    pct_kwh_valle_SD := safePct kwhValleSD totalKwh }

/-- Embeds `calcular_costes_anuales_por_tarifa`: classify, sum kWh per
period over the whole dataset, build one base row per tariff in catalog
order, sort by total cost, then attach the KPI columns (median and worst
taken over the sorted cost column, distribution shared by all rows).
`none` is the classification `ValueError`. -/
def calcularCostesAnualesPorTarifa (consumo : List Registro)
    (tarifas : List Tarifa) (potValle potPuntaLlano : ℚ) :
    Option (List FilaAnual) :=
  (clasificarRegistros consumo).map (fun xs =>
    let kwhPunta := kwhPorPeriodo xs Periodo.punta_LV
    let kwhLlano := kwhPorPeriodo xs Periodo.llano_LV
    let kwhValleLV := kwhPorPeriodo xs Periodo.valle_LV
    let kwhValleSD := kwhPorPeriodo xs Periodo.valle_SD
    let totalKwh := kwhPunta + kwhLlano + kwhValleLV + kwhValleSD
    let resultados := tarifas.map
      (filaAnualDe kwhPunta kwhLlano kwhValleLV kwhValleSD totalKwh
        potValle potPuntaLlano)
    let res := ordenarPorCosteTotal resultados
    let mediana := medianaQ (res.map (fun b => b.coste_total_anual))
    let peor := maxQ (res.map (fun b => b.coste_total_anual))
    res.map (anadirKpisAnual mediana peor
      kwhPunta kwhLlano kwhValleLV kwhValleSD totalKwh))

/-- The fields the monthly loop stores in `mejor` when a tariff becomes
the current best of its (year, month) group. -/
structure FilaMesBase : Type where
  anio : Nat
  mes : Nat
  comercializadora : String
  tarifa : String
  kwh_mes : ℚ
  coste_energia_mes : ℚ
  coste_potencia_mes : ℚ
  coste_total_mes : ℚ
deriving DecidableEq

/-- A full row of the monthly best-tariff table: the winner's base
fields plus the savings KPIs added by `mejor.update`, the cost-share
percentages and the recomputed per-month consumption distribution. -/
structure FilaMes extends FilaMesBase where
  ref_mediana_coste_total_mes : ℚ
  ref_peor_coste_total_mes : ℚ
  ahorro_vs_mediana_eur_mes : ℚ
  ahorro_vs_mediana_pct_mes : ℚ
  ahorro_vs_peor_eur_mes : ℚ
  ahorro_vs_peor_pct_mes : ℚ
  pct_coste_energia_mes : ℚ
  pct_coste_potencia_mes : ℚ
  kwh_punta_LV_mes : ℚ
  kwh_llano_LV_mes : ℚ
  kwh_valle_LV_mes : ℚ
  kwh_valle_SD_mes : ℚ
  pct_kwh_punta_LV_mes : ℚ
  pct_kwh_llano_LV_mes : ℚ
  pct_kwh_valle_LV_mes : ℚ
  pct_kwh_valle_SD_mes : ℚ
deriving DecidableEq

/-- Body of the monthly per-tariff loop: energy cost over the month's
period totals and the power cost with no ×12 factor ("Potencia mensual
(no *12)"). -/
def costeEnergiaMes (kwhPunta kwhLlano kwhValleLV kwhValleSD : ℚ) (t : Tarifa) : ℚ :=
  kwhPunta * t.punta_LV + kwhLlano * t.llano_LV
    + kwhValleLV * t.valle_LV + kwhValleSD * t.valle_SD

/-- Monthly fixed power cost of one tariff (monthly charge × kW, billed
once). -/
def costePotenciaMes (potValle potPuntaLlano : ℚ) (t : Tarifa) : ℚ :=
  t.potencia_mes_valle * potValle + t.potencia_mes_punta_llano * potPuntaLlano

/-- The monthly total the loop compares tariffs by. -/
def costeTotalMes (kwhPunta kwhLlano kwhValleLV kwhValleSD potValle potPuntaLlano : ℚ)
    (t : Tarifa) : ℚ :=
  costeEnergiaMes kwhPunta kwhLlano kwhValleLV kwhValleSD t
    + costePotenciaMes potValle potPuntaLlano t

/-- The dict assigned to `mejor` when tariff `t` becomes the current
best of group (`a`, `m`). -/
def filaMesDe (a m : Nat) (kwhPunta kwhLlano kwhValleLV kwhValleSD totalKwhMes : ℚ)
    (potValle potPuntaLlano : ℚ) (t : Tarifa) : FilaMesBase :=
  { anio := a
    mes := m
    comercializadora := t.comercializadora
    tarifa := t.tarifa
    kwh_mes := totalKwhMes
    coste_energia_mes := costeEnergiaMes kwhPunta kwhLlano kwhValleLV kwhValleSD t
    coste_potencia_mes := costePotenciaMes potValle potPuntaLlano t
    coste_total_mes :=
      costeTotalMes kwhPunta kwhLlano kwhValleLV kwhValleSD potValle potPuntaLlano t }

/-- One iteration of the selection loop: `mejor` is replaced exactly
when it is still `None` or `total < mejor["coste_total_mes"]` (strict,
so the first tariff attaining the running minimum is kept). -/
def pasoMejor (a m : Nat) (kwhPunta kwhLlano kwhValleLV kwhValleSD totalKwhMes : ℚ)
    (potValle potPuntaLlano : ℚ) (mejor : Option FilaMesBase) (t : Tarifa) :
    Option FilaMesBase :=
  let fila := filaMesDe a m kwhPunta kwhLlano kwhValleLV kwhValleSD totalKwhMes
    potValle potPuntaLlano t
  match mejor with
  | none => some fila
  | some mj =>
      if fila.coste_total_mes < mj.coste_total_mes then some fila else some mj

/-- The selection loop over the catalog, starting from `mejor = None`. -/
def seleccionarMejor (a m : Nat) (kwhPunta kwhLlano kwhValleLV kwhValleSD totalKwhMes : ℚ)
    (potValle potPuntaLlano : ℚ) (tarifas : List Tarifa) : Option FilaMesBase :=
  tarifas.foldl
    (pasoMejor a m kwhPunta kwhLlano kwhValleLV kwhValleSD totalKwhMes potValle potPuntaLlano)
    none

/-- The distinct (year, month) keys of `df.groupby(["anio", "mes"])`,
in ascending key order (pandas sorts group keys). -/
def clavesMes (rs : List Registro) : List (Nat × Nat) :=
  List.insertionSort
    (fun a b => a.1 < b.1 ∨ (a.1 = b.1 ∧ a.2 ≤ b.2))
    ((rs.map (fun r => (r.anio, r.mes))).dedup)

/-- The classified records of one (year, month) group. -/
def grupoMes (xs : List (Registro × Periodo)) (a m : Nat) :
    List (Registro × Periodo) :=
  xs.filter (fun x => decide (x.1.anio = a ∧ x.1.mes = m))

/-- One iteration of the per-month loop: the month's period totals, the
selection loop over the catalog, and the savings KPIs of the winner
computed from that month's full cost list.  `none` is the runtime error
the source hits when the catalog is empty (`mejor` stays `None`). -/
def filaDelMes (tarifas : List Tarifa) (potValle potPuntaLlano : ℚ)
    (xs : List (Registro × Periodo)) (km : Nat × Nat) : Option FilaMes :=
  let g := grupoMes xs km.1 km.2
  let kwhPunta := kwhPorPeriodo g Periodo.punta_LV
  let kwhLlano := kwhPorPeriodo g Periodo.llano_LV
  let kwhValleLV := kwhPorPeriodo g Periodo.valle_LV
  let kwhValleSD := kwhPorPeriodo g Periodo.valle_SD
  let totalKwhMes := kwhPunta + kwhLlano + kwhValleLV + kwhValleSD
  let costesMes := tarifas.map
    (costeTotalMes kwhPunta kwhLlano kwhValleLV kwhValleSD potValle potPuntaLlano)
  (seleccionarMejor km.1 km.2 kwhPunta kwhLlano kwhValleLV kwhValleSD totalKwhMes
      potValle potPuntaLlano tarifas).map (fun mejor =>
    let refMediana := medianaQ costesMes
    let refPeor := maxQ costesMes
    let ahorroVsMediana := refMediana - mejor.coste_total_mes
    let ahorroVsPeor := refPeor - mejor.coste_total_mes
    { toFilaMesBase := mejor
      ref_mediana_coste_total_mes := refMediana
      ref_peor_coste_total_mes := refPeor
      ahorro_vs_mediana_eur_mes := ahorroVsMediana
      ahorro_vs_mediana_pct_mes := safePct ahorroVsMediana refMediana
      ahorro_vs_peor_eur_mes := ahorroVsPeor
      ahorro_vs_peor_pct_mes := safePct ahorroVsPeor refPeor
      pct_coste_energia_mes := safePct mejor.coste_energia_mes mejor.coste_total_mes
      pct_coste_potencia_mes := safePct mejor.coste_potencia_mes mejor.coste_total_mes
      kwh_punta_LV_mes := kwhPunta
      kwh_llano_LV_mes := kwhLlano
      kwh_valle_LV_mes := kwhValleLV
      kwh_valle_SD_mes := kwhValleSD
      pct_kwh_punta_LV_mes := safePct kwhPunta totalKwhMes
      pct_kwh_llano_LV_mes := safePct kwhLlano totalKwhMes
      pct_kwh_valle_LV_mes := safePct kwhValleLV totalKwhMes
      pct_kwh_valle_SD_mes := safePct kwhValleSD totalKwhMes })

/-- The per-month loop: one row per group, failing (`none`) as soon as
one group fails.  The cost-share columns `_anadir_pct_energia_potencia`
adds after the loop and the per-month distribution recomputed from the
classified frame are folded into `filaDelMes`, which is the same
row-by-row transformation. -/
def construirFilasMes (tarifas : List Tarifa) (potValle potPuntaLlano : ℚ)
    (xs : List (Registro × Periodo)) : List (Nat × Nat) → Option (List FilaMes)
  | [] => some []
  | km :: resto =>
      match filaDelMes tarifas potValle potPuntaLlano xs km,
          construirFilasMes tarifas potValle potPuntaLlano xs resto with
      | some fila, some filas => some (fila :: filas)
      | _, _ => none

/-- Embeds `calcular_mejor_tarifa_por_mes`: classify every record, then
for each (year, month) group run the selection loop and attach the KPI
and distribution columns.  Rows come out in ascending (year, month)
order, matching the final `sort_values(["anio", "mes"])` (keys are
distinct, so that sort is deterministic).  `none` is the classification
`ValueError` or the empty-catalog crash. -/
def calcularMejorTarifaPorMes (consumo : List Registro) (tarifas : List Tarifa)
    (potValle potPuntaLlano : ℚ) : Option (List FilaMes) :=
  (clasificarRegistros consumo).bind (fun xs =>
    construirFilasMes tarifas potValle potPuntaLlano xs (clavesMes consumo))

/-- The month's kWh total of one period, as the monthly loop computes
it from the classified frame. -/
def kwhGrupo (xs : List (Registro × Periodo)) (a m : Nat) (p : Periodo) : ℚ :=
  kwhPorPeriodo (grupoMes xs a m) p

/-- The monthly total of one tariff over a (year, month) group of the
classified frame. -/
def costeMesDe (xs : List (Registro × Periodo)) (a m : Nat)
    (potValle potPuntaLlano : ℚ) (t : Tarifa) : ℚ :=
  costeTotalMes (kwhGrupo xs a m Periodo.punta_LV) (kwhGrupo xs a m Periodo.llano_LV)
    (kwhGrupo xs a m Periodo.valle_LV) (kwhGrupo xs a m Periodo.valle_SD)
    potValle potPuntaLlano t

/-- The record-period pairing the classifier produces on every input
(proved below): each record tagged by the spec's priority rule. -/
def etiquetar (rs : List Registro) : List (Registro × Periodo) :=
  rs.map (fun r => (r, clasificarSpec r.hora r.es_fin_semana))

theorem clasificarPeriodoOpt_eq_spec (hora : Nat) (w : Bool) :
    clasificarPeriodoOpt hora w = some (clasificarSpec hora w) := by
  cases w
  all_goals
    simp only [clasificarPeriodoOpt, clasificarSpec]
    split_ifs <;> simp_all <;> omega

theorem clasificarPeriodoLista_eq_spec (rs : List Registro) :
    clasificarPeriodoLista rs
      = some (rs.map (fun r => clasificarSpec r.hora r.es_fin_semana)) := by
  induction rs with
  | nil => rfl
  | cons r l ih =>
      simp only [clasificarPeriodoLista] at ih ⊢
      rw [List.mapM_cons, clasificarPeriodoOpt_eq_spec, ih]
      rfl

theorem zip_self_map {β : Type} (g : Registro → β) (l : List Registro) :
    l.zip (l.map g) = l.map (fun r => (r, g r)) := by
  induction l with
  | nil => rfl
  | cons r l ih => simp [ih]

theorem clasificarRegistros_eq_spec (rs : List Registro) :
    clasificarRegistros rs = some (etiquetar rs) := by
  simp [clasificarRegistros, clasificarPeriodoLista_eq_spec, zip_self_map, etiquetar]

/-- C2: for every timestamp hour and weekend flag the classifier agrees
with the spec's priority rule (weekend → valle_SD; hour ∈ [0,8) →
valle_LV; hour ∈ [10,14) ∪ [18,22) → punta_LV; else llano_LV), and the
batch variant applies the rule element-wise, in input order. -/
theorem c2_clasificador_regla_prioridad :
    (∀ (hora : Nat) (w : Bool),
      clasificarPeriodoOpt hora w = some (clasificarSpec hora w)) ∧
    (∀ rs : List Registro,
      clasificarPeriodoLista rs
        = some (rs.map (fun r => clasificarSpec r.hora r.es_fin_semana))) :=
  ⟨clasificarPeriodoOpt_eq_spec, clasificarPeriodoLista_eq_spec⟩

/-- C6: every (hour, weekend) combination is assigned a period, so the
batch classifier never reaches its `ValueError` branch: on every list of
records it returns a result. -/
theorem c6_clasificacion_total :
    (∀ (hora : Nat) (w : Bool), ∃ p, clasificarPeriodoOpt hora w = some p) ∧
    (∀ rs : List Registro, ∃ xs, clasificarRegistros rs = some xs) :=
  ⟨fun hora w => ⟨clasificarSpec hora w, clasificarPeriodoOpt_eq_spec hora w⟩,
   fun rs => ⟨etiquetar rs, clasificarRegistros_eq_spec rs⟩⟩

theorem kwhPorPeriodo_particion (xs : List (Registro × Periodo)) :
    kwhPorPeriodo xs Periodo.punta_LV + kwhPorPeriodo xs Periodo.llano_LV
      + kwhPorPeriodo xs Periodo.valle_LV + kwhPorPeriodo xs Periodo.valle_SD
      = (xs.map (fun x => x.1.kwh)).sum := by
  induction xs with
  | nil => simp [kwhPorPeriodo]
  | cons x l ih =>
      rcases x with ⟨r, p⟩
      cases p <;> simp [kwhPorPeriodo] at ih ⊢ <;> linarith

theorem filtrar_etiquetar (p : Registro → Bool) (l : List Registro) :
    (etiquetar l).filter (fun x => p x.1) = etiquetar (l.filter p) := by
  induction l with
  | nil => rfl
  | cons r l ih =>
      simp only [etiquetar, List.map_cons, List.filter_cons] at ih ⊢
      cases hp : p r <;> simp [hp, ih]

theorem grupoMes_etiquetar (l : List Registro) (a m : Nat) :
    grupoMes (etiquetar l) a m
      = etiquetar (l.filter (fun r => decide (r.anio = a ∧ r.mes = m))) :=
  filtrar_etiquetar (fun r => decide (r.anio = a ∧ r.mes = m)) l

/-- C8: in both pipelines, the four per-period kWh sums of a window add
up to the window's total consumption: over the whole classified dataset
(annual window) and over every (year, month) group (monthly window). -/
theorem c8_particion_kwh (consumo : List Registro)
    (xs : List (Registro × Periodo))
    (hxs : clasificarRegistros consumo = some xs) :
    (kwhPorPeriodo xs Periodo.punta_LV + kwhPorPeriodo xs Periodo.llano_LV
        + kwhPorPeriodo xs Periodo.valle_LV + kwhPorPeriodo xs Periodo.valle_SD
      = (consumo.map (fun r => r.kwh)).sum) ∧
    (∀ a m : Nat,
      kwhGrupo xs a m Periodo.punta_LV + kwhGrupo xs a m Periodo.llano_LV
          + kwhGrupo xs a m Periodo.valle_LV + kwhGrupo xs a m Periodo.valle_SD
        = ((consumo.filter (fun r => decide (r.anio = a ∧ r.mes = m))).map
            (fun r => r.kwh)).sum) := by
  rw [clasificarRegistros_eq_spec] at hxs
  obtain rfl : etiquetar consumo = xs := Option.some_inj.mp hxs
  constructor
  · rw [kwhPorPeriodo_particion]
    simp only [etiquetar, List.map_map]
    rfl
  · intro a m
    simp only [kwhGrupo]
    rw [grupoMes_etiquetar, kwhPorPeriodo_particion]
    simp only [etiquetar, List.map_map]
    rfl

/-- The running-best state of a fold that keeps the current element
exactly when its key is strictly smaller: the shape of the monthly
selection loop. -/
def primerMenor {β : Type} (key : β → ℚ) : β → List β → β
  | b, [] => b
  | b, x :: l => primerMenor key (if key x < key b then x else b) l

theorem foldl_min_le_init (l : List ℚ) (a : ℚ) : l.foldl min a ≤ a := by
  induction l generalizing a with
  | nil => simp
  | cons x l ih => exact le_trans (ih (min a x)) (min_le_left a x)

theorem key_ite_min {β : Type} (key : β → ℚ) (b x : β) :
    key (if key x < key b then x else b) = min (key b) (key x) := by
  rcases lt_or_le (key x) (key b) with h | h
  · rw [if_pos h, min_eq_right h.le]
  · rw [if_neg (not_lt.mpr h), min_eq_left h]

theorem primerMenor_find {β : Type} (key : β → ℚ) (b : β) (l : List β) :
    (b :: l).find? (fun y => decide (key y = (l.map key).foldl min (key b)))
      = some (primerMenor key b l) := by
  induction l generalizing b with
  | nil =>
      simp [primerMenor, List.find?_cons_of_pos]
  | cons x l ih =>
      have hM : ((x :: l).map key).foldl min (key b)
          = (l.map key).foldl min (key (if key x < key b then x else b)) := by
        rw [List.map_cons, List.foldl_cons, key_ite_min key b x]
      have hMb : ((x :: l).map key).foldl min (key b) ≤ min (key b) (key x) := by
        rw [List.map_cons, List.foldl_cons]
        exact foldl_min_le_init _ _
      have ihx := ih (if key x < key b then x else b)
      rw [← hM] at ihx
      by_cases hb : key b = ((x :: l).map key).foldl min (key b)
      · have hxb : ¬ key x < key b := by
          have : key b ≤ key x := hb.le.trans (hMb.trans (min_le_right _ _))
          exact not_lt.mpr this
        rw [if_neg hxb] at ihx
        rw [List.find?_cons_of_pos _ (by simpa using hb)]
        rw [List.find?_cons_of_pos _ (by simpa using hb)] at ihx
        simp only [primerMenor, if_neg hxb]
        exact ihx
      · rw [List.find?_cons_of_neg _ (by simpa using hb)]
        simp only [primerMenor]
        by_cases hx : key x < key b
        · rw [if_pos hx] at ihx ⊢
          exact ihx
        · rw [if_neg hx] at ihx ⊢
          rw [List.find?_cons_of_neg _ (by simpa using hb)] at ihx
          have hbx : key b ≤ key x := not_lt.mp hx
          have hxM : ¬ key x = ((x :: l).map key).foldl min (key b) := by
            intro hEq
            have h1 : ((x :: l).map key).foldl min (key b) ≤ key b :=
              hMb.trans (min_le_left _ _)
            exact hb (le_antisymm (hEq ▸ hbx) h1)
          rw [List.find?_cons_of_neg _ (by simpa using hxM)]
          exact ihx

theorem primerMenor_key {β : Type} (key : β → ℚ) (b : β) (l : List β) :
    key (primerMenor key b l) = (l.map key).foldl min (key b) := by
  have h := List.find?_some (primerMenor_find key b l)
  simpa using h

theorem primerMenor_mem {β : Type} (key : β → ℚ) (b : β) (l : List β) :
    primerMenor key b l ∈ b :: l :=
  List.mem_of_find?_eq_some (primerMenor_find key b l)

theorem pasoMejor_some (a m : Nat) (kp kl kv ks tot pv ppl : ℚ)
    (mj : FilaMesBase) (t : Tarifa) :
    pasoMejor a m kp kl kv ks tot pv ppl (some mj) t
      = some (if (filaMesDe a m kp kl kv ks tot pv ppl t).coste_total_mes
            < mj.coste_total_mes
          then filaMesDe a m kp kl kv ks tot pv ppl t else mj) := by
  by_cases h : (filaMesDe a m kp kl kv ks tot pv ppl t).coste_total_mes
      < mj.coste_total_mes <;>
    simp [pasoMejor, h]

theorem foldl_paso_some (a m : Nat) (kp kl kv ks tot pv ppl : ℚ)
    (ts : List Tarifa) (mj : FilaMesBase) :
    ts.foldl (pasoMejor a m kp kl kv ks tot pv ppl) (some mj)
      = some (primerMenor (fun f => f.coste_total_mes) mj
          (ts.map (filaMesDe a m kp kl kv ks tot pv ppl))) := by
  induction ts generalizing mj with
  | nil => rfl
  | cons t ts ih =>
      rw [List.foldl_cons, pasoMejor_some, ih]
      simp only [List.map_cons, primerMenor]

theorem seleccionarMejor_eq_primerMenor (a m : Nat) (kp kl kv ks tot pv ppl : ℚ)
    (t0 : Tarifa) (ts : List Tarifa) :
    seleccionarMejor a m kp kl kv ks tot pv ppl (t0 :: ts)
      = some (primerMenor (fun f => f.coste_total_mes)
          (filaMesDe a m kp kl kv ks tot pv ppl t0)
          (ts.map (filaMesDe a m kp kl kv ks tot pv ppl))) := by
  rw [seleccionarMejor, List.foldl_cons]
  exact foldl_paso_some a m kp kl kv ks tot pv ppl ts
    (filaMesDe a m kp kl kv ks tot pv ppl t0)

theorem seleccionarMejor_nil (a m : Nat) (kp kl kv ks tot pv ppl : ℚ) :
    seleccionarMejor a m kp kl kv ks tot pv ppl [] = none := rfl

theorem construirFilasMes_mem {ts : List Tarifa} {pv ppl : ℚ}
    {xs : List (Registro × Periodo)} {l : List (Nat × Nat)}
    {out : List FilaMes} {fila : FilaMes}
    (h : construirFilasMes ts pv ppl xs l = some out) (hf : fila ∈ out) :
    ∃ km ∈ l, filaDelMes ts pv ppl xs km = some fila := by
  induction l generalizing out with
  | nil =>
      obtain rfl : out = [] := by
        rw [construirFilasMes] at h
        exact (Option.some_inj.mp h).symm
      simp at hf
  | cons km l ih =>
      rw [construirFilasMes] at h
      cases h1 : filaDelMes ts pv ppl xs km with
      | none => rw [h1] at h; simp at h
      | some f0 =>
          cases h2 : construirFilasMes ts pv ppl xs l with
          | none => rw [h1, h2] at h; simp at h
          | some fs =>
              rw [h1, h2] at h
              obtain rfl : f0 :: fs = out := by simpa using h
              rcases List.mem_cons.mp hf with rfl | hf2
              · exact ⟨km, List.mem_cons_self km l, h1⟩
              · obtain ⟨km2, hkm2, he⟩ := ih h2 hf2
                exact ⟨km2, List.mem_cons_of_mem km hkm2, he⟩

theorem filaDelMes_elim {ts : List Tarifa} {pv ppl : ℚ}
    {xs : List (Registro × Periodo)} {km : Nat × Nat} {fila : FilaMes}
    (h : filaDelMes ts pv ppl xs km = some fila) :
    ∃ mejor,
      seleccionarMejor km.1 km.2
          (kwhGrupo xs km.1 km.2 Periodo.punta_LV)
          (kwhGrupo xs km.1 km.2 Periodo.llano_LV)
          (kwhGrupo xs km.1 km.2 Periodo.valle_LV)
          (kwhGrupo xs km.1 km.2 Periodo.valle_SD)
          (kwhGrupo xs km.1 km.2 Periodo.punta_LV + kwhGrupo xs km.1 km.2 Periodo.llano_LV
            + kwhGrupo xs km.1 km.2 Periodo.valle_LV + kwhGrupo xs km.1 km.2 Periodo.valle_SD)
          pv ppl ts = some mejor ∧
        fila.toFilaMesBase = mejor ∧
        fila.pct_coste_energia_mes = safePct mejor.coste_energia_mes mejor.coste_total_mes ∧
        fila.pct_coste_potencia_mes = safePct mejor.coste_potencia_mes mejor.coste_total_mes := by
  simp only [filaDelMes] at h
  obtain ⟨mejor, hsel, hmap⟩ := Option.map_eq_some'.mp h
  refine ⟨mejor, ?_, ?_, ?_, ?_⟩
  · simp only [kwhGrupo]
    exact hsel
  · rw [← hmap]
  · rw [← hmap]
  · rw [← hmap]

theorem seleccionar_primero_minimo (a m : Nat) (kp kl kv ks tot pv ppl : ℚ)
    (t0 : Tarifa) (ts' : List Tarifa) :
    ∃ w, seleccionarMejor a m kp kl kv ks tot pv ppl (t0 :: ts') = some w ∧
      w.coste_total_mes
        = minQ ((t0 :: ts').map (costeTotalMes kp kl kv ks pv ppl)) ∧
      ∃ tStar,
        (t0 :: ts').find? (fun t => decide (costeTotalMes kp kl kv ks pv ppl t
            = minQ ((t0 :: ts').map (costeTotalMes kp kl kv ks pv ppl)))) = some tStar ∧
        w = filaMesDe a m kp kl kv ks tot pv ppl tStar := by
  have hcomp : ((fun f : FilaMesBase => f.coste_total_mes)
        ∘ filaMesDe a m kp kl kv ks tot pv ppl)
      = costeTotalMes kp kl kv ks pv ppl := by
    funext t
    rfl
  have hM : ((ts'.map (filaMesDe a m kp kl kv ks tot pv ppl)).map
        (fun f : FilaMesBase => f.coste_total_mes)).foldl min
        ((fun f : FilaMesBase => f.coste_total_mes)
          (filaMesDe a m kp kl kv ks tot pv ppl t0))
      = minQ ((t0 :: ts').map (costeTotalMes kp kl kv ks pv ppl)) := by
    rw [List.map_map, hcomp]
    simp only [List.map_cons, minQ]
    rfl
  refine ⟨_, seleccionarMejor_eq_primerMenor a m kp kl kv ks tot pv ppl t0 ts', ?_, ?_⟩
  · have h2 := primerMenor_key (fun f : FilaMesBase => f.coste_total_mes)
      (filaMesDe a m kp kl kv ks tot pv ppl t0)
      (ts'.map (filaMesDe a m kp kl kv ks tot pv ppl))
    rw [hM] at h2
    exact h2
  · have h3 := primerMenor_find (fun f : FilaMesBase => f.coste_total_mes)
      (filaMesDe a m kp kl kv ks tot pv ppl t0)
      (ts'.map (filaMesDe a m kp kl kv ks tot pv ppl))
    rw [hM] at h3
    rw [← List.map_cons (filaMesDe a m kp kl kv ks tot pv ppl) t0 ts',
      List.find?_map] at h3
    have hpred : ((fun y : FilaMesBase => decide (y.coste_total_mes
            = minQ ((t0 :: ts').map (costeTotalMes kp kl kv ks pv ppl))))
          ∘ filaMesDe a m kp kl kv ks tot pv ppl)
        = (fun t => decide (costeTotalMes kp kl kv ks pv ppl t
            = minQ ((t0 :: ts').map (costeTotalMes kp kl kv ks pv ppl)))) := by
      funext t
      rfl
    rw [hpred] at h3
    obtain ⟨tStar, h4, h5⟩ := Option.map_eq_some'.mp h3
    exact ⟨tStar, h4, h5.symm⟩

/-- C1: every row of the monthly table has the minimum total cost over
the whole catalog for its (year, month) group, and is built from the
first tariff in catalog order attaining that minimum. -/
theorem c1_mejor_tarifa_minimo_mensual
    (consumo : List Registro) (ts : List Tarifa) (pv ppl : ℚ)
    (out : List FilaMes)
    (h : calcularMejorTarifaPorMes consumo ts pv ppl = some out)
    (fila : FilaMes) (hf : fila ∈ out)
    (xs : List (Registro × Periodo)) (hxs : clasificarRegistros consumo = some xs) :
    fila.coste_total_mes
        = minQ (ts.map (costeMesDe xs fila.anio fila.mes pv ppl)) ∧
      ∃ tStar,
        ts.find? (fun t => decide (costeMesDe xs fila.anio fila.mes pv ppl t
            = minQ (ts.map (costeMesDe xs fila.anio fila.mes pv ppl)))) = some tStar ∧
        fila.toFilaMesBase = filaMesDe fila.anio fila.mes
          (kwhGrupo xs fila.anio fila.mes Periodo.punta_LV)
          (kwhGrupo xs fila.anio fila.mes Periodo.llano_LV)
          (kwhGrupo xs fila.anio fila.mes Periodo.valle_LV)
          (kwhGrupo xs fila.anio fila.mes Periodo.valle_SD)
          (kwhGrupo xs fila.anio fila.mes Periodo.punta_LV
            + kwhGrupo xs fila.anio fila.mes Periodo.llano_LV
            + kwhGrupo xs fila.anio fila.mes Periodo.valle_LV
            + kwhGrupo xs fila.anio fila.mes Periodo.valle_SD) pv ppl tStar := by
  rw [clasificarRegistros_eq_spec] at hxs
  obtain rfl : etiquetar consumo = xs := Option.some_inj.mp hxs
  rw [calcularMejorTarifaPorMes, clasificarRegistros_eq_spec, Option.some_bind] at h
  obtain ⟨km, _, hfd⟩ := construirFilasMes_mem h hf
  obtain ⟨mejor, hsel, hbase, -, -⟩ := filaDelMes_elim hfd
  cases ts with
  | nil => rw [seleccionarMejor_nil] at hsel; exact absurd hsel (by simp)
  | cons t0 ts' =>
      obtain ⟨w, hw, hwmin, tStar, hfind, hwt⟩ :=
        seleccionar_primero_minimo km.1 km.2
          (kwhGrupo (etiquetar consumo) km.1 km.2 Periodo.punta_LV)
          (kwhGrupo (etiquetar consumo) km.1 km.2 Periodo.llano_LV)
          (kwhGrupo (etiquetar consumo) km.1 km.2 Periodo.valle_LV)
          (kwhGrupo (etiquetar consumo) km.1 km.2 Periodo.valle_SD)
          (kwhGrupo (etiquetar consumo) km.1 km.2 Periodo.punta_LV
            + kwhGrupo (etiquetar consumo) km.1 km.2 Periodo.llano_LV
            + kwhGrupo (etiquetar consumo) km.1 km.2 Periodo.valle_LV
            + kwhGrupo (etiquetar consumo) km.1 km.2 Periodo.valle_SD) pv ppl t0 ts'
      rw [hw] at hsel
      obtain rfl : w = mejor := Option.some_inj.mp hsel
      have ha : fila.anio = km.1 := by
        rw [show fila.anio = fila.toFilaMesBase.anio from rfl, hbase, hwt]
        rfl
      have hm : fila.mes = km.2 := by
        rw [show fila.mes = fila.toFilaMesBase.mes from rfl, hbase, hwt]
        rfl
      have hct : fila.coste_total_mes = w.coste_total_mes := by
        rw [show fila.coste_total_mes = fila.toFilaMesBase.coste_total_mes from rfl, hbase]
      rw [ha, hm]
      constructor
      · rw [hct, hwmin]
        rfl
      · refine ⟨tStar, ?_, ?_⟩
        · rw [show (fun t => decide (costeMesDe (etiquetar consumo) km.1 km.2 pv ppl t
                = minQ ((t0 :: ts').map (costeMesDe (etiquetar consumo) km.1 km.2 pv ppl))))
              = (fun t => decide (costeTotalMes
                  (kwhGrupo (etiquetar consumo) km.1 km.2 Periodo.punta_LV)
                  (kwhGrupo (etiquetar consumo) km.1 km.2 Periodo.llano_LV)
                  (kwhGrupo (etiquetar consumo) km.1 km.2 Periodo.valle_LV)
                  (kwhGrupo (etiquetar consumo) km.1 km.2 Periodo.valle_SD) pv ppl t
                = minQ ((t0 :: ts').map (costeTotalMes
                    (kwhGrupo (etiquetar consumo) km.1 km.2 Periodo.punta_LV)
                    (kwhGrupo (etiquetar consumo) km.1 km.2 Periodo.llano_LV)
                    (kwhGrupo (etiquetar consumo) km.1 km.2 Periodo.valle_LV)
                    (kwhGrupo (etiquetar consumo) km.1 km.2 Periodo.valle_SD) pv ppl)))) from rfl]
          exact hfind
        · rw [hbase, hwt]

theorem mem_tablaAnual {consumo : List Registro} {ts : List Tarifa} {pv ppl : ℚ}
    {out : List FilaAnual} {fila : FilaAnual}
    (h : calcularCostesAnualesPorTarifa consumo ts pv ppl = some out)
    (hf : fila ∈ out) :
    ∃ t ∈ ts,
      fila.toFilaAnualBase = filaAnualDe
        (kwhPorPeriodo (etiquetar consumo) Periodo.punta_LV)
        (kwhPorPeriodo (etiquetar consumo) Periodo.llano_LV)
        (kwhPorPeriodo (etiquetar consumo) Periodo.valle_LV)
        (kwhPorPeriodo (etiquetar consumo) Periodo.valle_SD)
        (kwhPorPeriodo (etiquetar consumo) Periodo.punta_LV
          + kwhPorPeriodo (etiquetar consumo) Periodo.llano_LV
          + kwhPorPeriodo (etiquetar consumo) Periodo.valle_LV
          + kwhPorPeriodo (etiquetar consumo) Periodo.valle_SD) pv ppl t ∧
      fila.pct_coste_energia_anual
        = safePct fila.coste_energia_anual fila.coste_total_anual ∧
      fila.pct_coste_potencia_anual
        = safePct fila.coste_potencia_anual fila.coste_total_anual := by
  simp only [calcularCostesAnualesPorTarifa, clasificarRegistros_eq_spec,
    Option.map_some'] at h
  obtain rfl := (Option.some_inj.mp h).symm
  obtain ⟨b, hb, rfl⟩ := List.mem_map.mp hf
  rw [ordenarPorCosteTotal, List.mem_insertionSort] at hb
  obtain ⟨t, ht, rfl⟩ := List.mem_map.mp hb
  exact ⟨t, ht, rfl, rfl, rfl⟩

theorem seleccionarMejor_mem {a m : Nat} {kp kl kv ks tot pv ppl : ℚ}
    {ts : List Tarifa} {mejor : FilaMesBase}
    (h : seleccionarMejor a m kp kl kv ks tot pv ppl ts = some mejor) :
    ∃ t ∈ ts, mejor = filaMesDe a m kp kl kv ks tot pv ppl t := by
  cases ts with
  | nil => rw [seleccionarMejor_nil] at h; exact absurd h (by simp)
  | cons t0 ts' =>
      rw [seleccionarMejor_eq_primerMenor] at h
      obtain rfl := (Option.some_inj.mp h).symm
      have hmem := primerMenor_mem (fun f : FilaMesBase => f.coste_total_mes)
        (filaMesDe a m kp kl kv ks tot pv ppl t0)
        (ts'.map (filaMesDe a m kp kl kv ks tot pv ppl))
      rcases List.mem_cons.mp hmem with heq | hmem2
      · exact ⟨t0, List.mem_cons_self t0 ts', heq⟩
      · obtain ⟨t, ht, heq⟩ := List.mem_map.mp hmem2
        exact ⟨t, List.mem_cons_of_mem t0 ht, heq.symm⟩

theorem safePct_cero (x : ℚ) : safePct x 0 = 0 := by
  simp [safePct]

theorem safePct_suma (e p : ℚ) (h : e + p ≠ 0) :
    safePct e (e + p) + safePct p (e + p) = 100 := by
  rw [safePct, safePct, if_neg h, if_neg h]
  field_simp
  ring

/-- C7: the shared zero-safe percentage helper returns 0 on a zero
denominator and the ordinary percentage otherwise, and the annual
average unit cost is 0 (not a division error) whenever a window's total
kWh is 0. -/
theorem c7_division_cero_es_cero :
    (∀ x : ℚ, safePct x 0 = 0) ∧
    (∀ x t : ℚ, t ≠ 0 → safePct x t = 100 * x / t) ∧
    (∀ (consumo : List Registro) (ts : List Tarifa) (pv ppl : ℚ)
        (out : List FilaAnual),
      calcularCostesAnualesPorTarifa consumo ts pv ppl = some out →
      ∀ fila ∈ out, fila.kwh_anuales = 0 → fila.coste_medio_eur_kwh = 0) := by
  refine ⟨safePct_cero, ?_, ?_⟩
  · intro x t ht
    rw [safePct, if_neg ht]
    ring
  · intro consumo ts pv ppl out h fila hf hk
    obtain ⟨t, -, hbase, -, -⟩ := mem_tablaAnual h hf
    rw [show fila.kwh_anuales = fila.toFilaAnualBase.kwh_anuales from rfl, hbase] at hk
    rw [show fila.coste_medio_eur_kwh = fila.toFilaAnualBase.coste_medio_eur_kwh from rfl,
      hbase]
    have hnot : ¬ (0 : ℚ) < kwhPorPeriodo (etiquetar consumo) Periodo.punta_LV
        + kwhPorPeriodo (etiquetar consumo) Periodo.llano_LV
        + kwhPorPeriodo (etiquetar consumo) Periodo.valle_LV
        + kwhPorPeriodo (etiquetar consumo) Periodo.valle_SD := by
      rw [show (filaAnualDe (kwhPorPeriodo (etiquetar consumo) Periodo.punta_LV)
          (kwhPorPeriodo (etiquetar consumo) Periodo.llano_LV)
          (kwhPorPeriodo (etiquetar consumo) Periodo.valle_LV)
          (kwhPorPeriodo (etiquetar consumo) Periodo.valle_SD)
          (kwhPorPeriodo (etiquetar consumo) Periodo.punta_LV
            + kwhPorPeriodo (etiquetar consumo) Periodo.llano_LV
            + kwhPorPeriodo (etiquetar consumo) Periodo.valle_LV
            + kwhPorPeriodo (etiquetar consumo) Periodo.valle_SD) pv ppl t).kwh_anuales
          = kwhPorPeriodo (etiquetar consumo) Periodo.punta_LV
            + kwhPorPeriodo (etiquetar consumo) Periodo.llano_LV
            + kwhPorPeriodo (etiquetar consumo) Periodo.valle_LV
            + kwhPorPeriodo (etiquetar consumo) Periodo.valle_SD from rfl] at hk
      rw [hk]
      exact lt_irrefl 0
    simp only [filaAnualDe, if_neg hnot]

/-- C3: every row of the annual table prices the window's per-period
kWh with the tariff's unit prices and bills the monthly power charges
12 times; every row of the monthly table does the same over its month's
kWh with the power charges billed once; in both, total = energy + power. -/
theorem c3_desglose_costes
    (consumo : List Registro) (ts : List Tarifa) (pv ppl : ℚ)
    (xs : List (Registro × Periodo))
    (hxs : clasificarRegistros consumo = some xs) :
    (∀ out, calcularCostesAnualesPorTarifa consumo ts pv ppl = some out →
      ∀ fila ∈ out, ∃ t ∈ ts,
        fila.comercializadora = t.comercializadora ∧ fila.tarifa = t.tarifa ∧
        fila.coste_energia_anual
          = kwhPorPeriodo xs Periodo.punta_LV * t.punta_LV
            + kwhPorPeriodo xs Periodo.llano_LV * t.llano_LV
            + kwhPorPeriodo xs Periodo.valle_LV * t.valle_LV
            + kwhPorPeriodo xs Periodo.valle_SD * t.valle_SD ∧
        fila.coste_potencia_anual
          = t.potencia_mes_valle * pv * 12 + t.potencia_mes_punta_llano * ppl * 12 ∧
        fila.coste_total_anual
          = fila.coste_energia_anual + fila.coste_potencia_anual) ∧
    (∀ out, calcularMejorTarifaPorMes consumo ts pv ppl = some out →
      ∀ fila ∈ out, ∃ t ∈ ts,
        fila.comercializadora = t.comercializadora ∧ fila.tarifa = t.tarifa ∧
        fila.coste_energia_mes
          = kwhGrupo xs fila.anio fila.mes Periodo.punta_LV * t.punta_LV
            + kwhGrupo xs fila.anio fila.mes Periodo.llano_LV * t.llano_LV
            + kwhGrupo xs fila.anio fila.mes Periodo.valle_LV * t.valle_LV
            + kwhGrupo xs fila.anio fila.mes Periodo.valle_SD * t.valle_SD ∧
        fila.coste_potencia_mes
          = t.potencia_mes_valle * pv * 1 + t.potencia_mes_punta_llano * ppl * 1 ∧
        fila.coste_total_mes
          = fila.coste_energia_mes + fila.coste_potencia_mes) := by
  rw [clasificarRegistros_eq_spec] at hxs
  obtain rfl : etiquetar consumo = xs := Option.some_inj.mp hxs
  constructor
  · intro out h fila hf
    obtain ⟨t, ht, hbase, -, -⟩ := mem_tablaAnual h hf
    refine ⟨t, ht, ?_, ?_, ?_, ?_, ?_⟩ <;>
      simp only [show fila.comercializadora = fila.toFilaAnualBase.comercializadora from rfl,
        show fila.tarifa = fila.toFilaAnualBase.tarifa from rfl,
        show fila.coste_energia_anual = fila.toFilaAnualBase.coste_energia_anual from rfl,
        show fila.coste_potencia_anual = fila.toFilaAnualBase.coste_potencia_anual from rfl,
        show fila.coste_total_anual = fila.toFilaAnualBase.coste_total_anual from rfl,
        hbase] <;>
      rfl
  · intro out h fila hf
    rw [calcularMejorTarifaPorMes, clasificarRegistros_eq_spec, Option.some_bind] at h
    obtain ⟨km, -, hfd⟩ := construirFilasMes_mem h hf
    obtain ⟨mejor, hsel, hbase, -, -⟩ := filaDelMes_elim hfd
    obtain ⟨t, ht, rfl⟩ := seleccionarMejor_mem hsel
    have ha : fila.anio = km.1 := by
      rw [show fila.anio = fila.toFilaMesBase.anio from rfl, hbase]
      rfl
    have hm : fila.mes = km.2 := by
      rw [show fila.mes = fila.toFilaMesBase.mes from rfl, hbase]
      rfl
    rw [ha, hm]
    refine ⟨t, ht, ?_, ?_, ?_, ?_, ?_⟩ <;>
      simp only [show fila.comercializadora = fila.toFilaMesBase.comercializadora from rfl,
        show fila.tarifa = fila.toFilaMesBase.tarifa from rfl,
        show fila.coste_energia_mes = fila.toFilaMesBase.coste_energia_mes from rfl,
        show fila.coste_potencia_mes = fila.toFilaMesBase.coste_potencia_mes from rfl,
        show fila.coste_total_mes = fila.toFilaMesBase.coste_total_mes from rfl,
        hbase]
    · rfl
    · rfl
    · rfl
    · show costePotenciaMes pv ppl t
        = t.potencia_mes_valle * pv * 1 + t.potencia_mes_punta_llano * ppl * 1
      rw [costePotenciaMes]
      ring
    · rfl

/-- C10: in every row of both output tables the energy and power cost
shares add up to 100 when the row's total cost is nonzero, and are both
0 when the total cost is 0. -/
theorem c10_pct_energia_potencia
    (consumo : List Registro) (ts : List Tarifa) (pv ppl : ℚ)
    (outA : List FilaAnual) (outM : List FilaMes)
    (hA : calcularCostesAnualesPorTarifa consumo ts pv ppl = some outA)
    (hM : calcularMejorTarifaPorMes consumo ts pv ppl = some outM) :
    (∀ fila ∈ outA,
      (fila.coste_total_anual ≠ 0 →
        fila.pct_coste_energia_anual + fila.pct_coste_potencia_anual = 100) ∧
      (fila.coste_total_anual = 0 →
        fila.pct_coste_energia_anual = 0 ∧ fila.pct_coste_potencia_anual = 0)) ∧
    (∀ fila ∈ outM,
      (fila.coste_total_mes ≠ 0 →
        fila.pct_coste_energia_mes + fila.pct_coste_potencia_mes = 100) ∧
      (fila.coste_total_mes = 0 →
        fila.pct_coste_energia_mes = 0 ∧ fila.pct_coste_potencia_mes = 0)) := by
  constructor
  · intro fila hf
    obtain ⟨t, -, hbase, hpe, hpp⟩ := mem_tablaAnual hA hf
    have htot : fila.coste_total_anual
        = fila.coste_energia_anual + fila.coste_potencia_anual := by
      simp only [show fila.coste_energia_anual = fila.toFilaAnualBase.coste_energia_anual from rfl,
        show fila.coste_potencia_anual = fila.toFilaAnualBase.coste_potencia_anual from rfl,
        show fila.coste_total_anual = fila.toFilaAnualBase.coste_total_anual from rfl, hbase]
      rfl
    constructor
    · intro hne
      rw [hpe, hpp, htot]
      exact safePct_suma _ _ (htot ▸ hne)
    · intro h0
      rw [hpe, hpp, h0]
      exact ⟨safePct_cero _, safePct_cero _⟩
  · intro fila hf
    rw [calcularMejorTarifaPorMes, clasificarRegistros_eq_spec, Option.some_bind] at hM
    obtain ⟨km, -, hfd⟩ := construirFilasMes_mem hM hf
    obtain ⟨mejor, hsel, hbase, hpe, hpp⟩ := filaDelMes_elim hfd
    obtain ⟨t, -, rfl⟩ := seleccionarMejor_mem hsel
    have hpe2 : fila.pct_coste_energia_mes
        = safePct fila.coste_energia_mes fila.coste_total_mes := by
      rw [hpe]
      simp only [show fila.coste_energia_mes = fila.toFilaMesBase.coste_energia_mes from rfl,
        show fila.coste_total_mes = fila.toFilaMesBase.coste_total_mes from rfl, hbase]
    have hpp2 : fila.pct_coste_potencia_mes
        = safePct fila.coste_potencia_mes fila.coste_total_mes := by
      rw [hpp]
      simp only [show fila.coste_potencia_mes = fila.toFilaMesBase.coste_potencia_mes from rfl,
        show fila.coste_total_mes = fila.toFilaMesBase.coste_total_mes from rfl, hbase]
    have htot : fila.coste_total_mes
        = fila.coste_energia_mes + fila.coste_potencia_mes := by
      simp only [show fila.coste_energia_mes = fila.toFilaMesBase.coste_energia_mes from rfl,
        show fila.coste_potencia_mes = fila.toFilaMesBase.coste_potencia_mes from rfl,
        show fila.coste_total_mes = fila.toFilaMesBase.coste_total_mes from rfl, hbase]
      rfl
    constructor
    · intro hne
      rw [hpe2, hpp2, htot]
      exact safePct_suma _ _ (htot ▸ hne)
    · intro h0
      rw [hpe2, hpp2, h0]
      exact ⟨safePct_cero _, safePct_cero _⟩

/-- C5: for a dataset contained in one calendar month, the annual
per-tariff energy cost coincides with the monthly one (same kWh by
period, same unit prices), and the annual power cost is 12 times the
monthly power cost. -/
theorem c5_consistencia_anual_mensual
    (consumo : List Registro) (a m : Nat) (xs : List (Registro × Periodo))
    (t : Tarifa) (pv ppl : ℚ)
    (hmes : ∀ r ∈ consumo, r.anio = a ∧ r.mes = m)
    (hxs : clasificarRegistros consumo = some xs) :
    (filaAnualDe (kwhPorPeriodo xs Periodo.punta_LV) (kwhPorPeriodo xs Periodo.llano_LV)
        (kwhPorPeriodo xs Periodo.valle_LV) (kwhPorPeriodo xs Periodo.valle_SD)
        (kwhPorPeriodo xs Periodo.punta_LV + kwhPorPeriodo xs Periodo.llano_LV
          + kwhPorPeriodo xs Periodo.valle_LV + kwhPorPeriodo xs Periodo.valle_SD)
        pv ppl t).coste_energia_anual
      = (filaMesDe a m (kwhGrupo xs a m Periodo.punta_LV) (kwhGrupo xs a m Periodo.llano_LV)
          (kwhGrupo xs a m Periodo.valle_LV) (kwhGrupo xs a m Periodo.valle_SD)
          (kwhGrupo xs a m Periodo.punta_LV + kwhGrupo xs a m Periodo.llano_LV
            + kwhGrupo xs a m Periodo.valle_LV + kwhGrupo xs a m Periodo.valle_SD)
          pv ppl t).coste_energia_mes ∧
    (filaAnualDe (kwhPorPeriodo xs Periodo.punta_LV) (kwhPorPeriodo xs Periodo.llano_LV)
        (kwhPorPeriodo xs Periodo.valle_LV) (kwhPorPeriodo xs Periodo.valle_SD)
        (kwhPorPeriodo xs Periodo.punta_LV + kwhPorPeriodo xs Periodo.llano_LV
          + kwhPorPeriodo xs Periodo.valle_LV + kwhPorPeriodo xs Periodo.valle_SD)
        pv ppl t).coste_potencia_anual
      = 12 * (filaMesDe a m (kwhGrupo xs a m Periodo.punta_LV)
          (kwhGrupo xs a m Periodo.llano_LV) (kwhGrupo xs a m Periodo.valle_LV)
          (kwhGrupo xs a m Periodo.valle_SD)
          (kwhGrupo xs a m Periodo.punta_LV + kwhGrupo xs a m Periodo.llano_LV
            + kwhGrupo xs a m Periodo.valle_LV + kwhGrupo xs a m Periodo.valle_SD)
          pv ppl t).coste_potencia_mes := by
  rw [clasificarRegistros_eq_spec] at hxs
  obtain rfl : etiquetar consumo = xs := Option.some_inj.mp hxs
  have hall : grupoMes (etiquetar consumo) a m = etiquetar consumo := by
    rw [grupoMes_etiquetar]
    congr 1
    rw [List.filter_eq_self]
    intro r hr
    simpa using hmes r hr
  constructor
  · simp only [kwhGrupo, hall]
    rfl
  · show t.potencia_mes_valle * pv * 12 + t.potencia_mes_punta_llano * ppl * 12
      = 12 * (t.potencia_mes_valle * pv + t.potencia_mes_punta_llano * ppl)
    ring

/-- C9: scenario check: 100 kWh at hour 12 on a weekday is classified
punta_LV, and with unit prices 0.20/0.15/0.10/0.08 (written as exact
fractions) and zero power charges the annual pipeline yields energy
cost 20, power cost 0, total cost 20 and a 100 percent energy share. -/
theorem c9_escenario_100kwh_punta :
    clasificarPeriodoOpt 12 false = some Periodo.punta_LV ∧
    (calcularCostesAnualesPorTarifa
        [{ anio := 2024, mes := 3, hora := 12, es_fin_semana := false, kwh := 100 }]
        [{ comercializadora := "A", tarifa := "T", punta_LV := 1/5, llano_LV := 3/20,
           valle_LV := 1/10, valle_SD := 2/25, potencia_mes_valle := 0,
           potencia_mes_punta_llano := 0 }] 3 4).map
      (fun out => out.map (fun f =>
        (f.coste_energia_anual, f.coste_potencia_anual, f.coste_total_anual,
          f.pct_coste_energia_anual)))
      = some [(20, 0, 20, 100)] := by
  constructor
  · rfl
  · simp [calcularCostesAnualesPorTarifa, clasificarRegistros, clasificarPeriodoLista,
      List.mapM, List.mapM.loop, clasificarPeriodoOpt, kwhPorPeriodo, filaAnualDe,
      ordenarPorCosteTotal, List.insertionSort, List.orderedInsert, medianaQ, maxQ,
      anadirKpisAnual, safePct]
    norm_num

/-- Concrete inputs for the witness theorems: one weekday peak-hour
record and two tariffs that differ only in the peak price. -/
def regW : Registro :=
  { anio := 2024, mes := 1, hora := 12, es_fin_semana := false, kwh := 10 }

def tarifaW1 : Tarifa :=
  { comercializadora := "A", tarifa := "cara", punta_LV := 2, llano_LV := 1,
    valle_LV := 1, valle_SD := 1, potencia_mes_valle := 1, potencia_mes_punta_llano := 1 }

def tarifaW2 : Tarifa :=
  { comercializadora := "B", tarifa := "barata", punta_LV := 1, llano_LV := 1,
    valle_LV := 1, valle_SD := 1, potencia_mes_valle := 1, potencia_mes_punta_llano := 1 }

/-- The monthly row the pipeline produces for `[regW]` against
`[tarifaW1, tarifaW2]` with both contracted powers 1. -/
def filaMesW : FilaMes :=
  { anio := 2024, mes := 1, comercializadora := "B", tarifa := "barata",
    kwh_mes := 10, coste_energia_mes := 10, coste_potencia_mes := 2, coste_total_mes := 12,
    ref_mediana_coste_total_mes := 17, ref_peor_coste_total_mes := 22,
    ahorro_vs_mediana_eur_mes := 5, ahorro_vs_mediana_pct_mes := 500/17,
    ahorro_vs_peor_eur_mes := 10, ahorro_vs_peor_pct_mes := 500/11,
    pct_coste_energia_mes := 250/3, pct_coste_potencia_mes := 50/3,
    kwh_punta_LV_mes := 10, kwh_llano_LV_mes := 0, kwh_valle_LV_mes := 0,
    kwh_valle_SD_mes := 0,
    pct_kwh_punta_LV_mes := 100, pct_kwh_llano_LV_mes := 0, pct_kwh_valle_LV_mes := 0,
    pct_kwh_valle_SD_mes := 0 }

/-- The annual row the pipeline produces for an empty dataset against
`[tarifaW1]` with both contracted powers 1. -/
def filaAnualW : FilaAnual :=
  { comercializadora := "A", tarifa := "cara", kwh_anuales := 0,
    coste_energia_anual := 0, coste_potencia_anual := 24, coste_total_anual := 24,
    coste_medio_eur_kwh := 0,
    ref_mediana_coste_total_anual := 24, ref_peor_coste_total_anual := 24,
    ahorro_vs_mediana_eur_anual := 0, ahorro_vs_peor_eur_anual := 0,
    ahorro_vs_mediana_pct_anual := 0, ahorro_vs_peor_pct_anual := 0,
    pct_coste_energia_anual := 0, pct_coste_potencia_anual := 100,
    kwh_punta_LV := 0, kwh_llano_LV := 0, kwh_valle_LV := 0, kwh_valle_SD := 0,
    pct_kwh_punta_LV := 0, pct_kwh_llano_LV := 0, pct_kwh_valle_LV := 0,
    pct_kwh_valle_SD := 0 }

theorem clasificarRegW : clasificarRegistros [regW] = some [(regW, Periodo.punta_LV)] := rfl

theorem mesVacioW : calcularMejorTarifaPorMes [] [tarifaW1] 1 1 = some [] := rfl

theorem mesW : calcularMejorTarifaPorMes [regW] [tarifaW1, tarifaW2] 1 1
    = some [filaMesW] := by
  simp [calcularMejorTarifaPorMes, clasificarRegistros, clasificarPeriodoLista,
    List.mapM, List.mapM.loop, clasificarPeriodoOpt, regW, tarifaW1, tarifaW2,
    clavesMes, List.insertionSort, List.orderedInsert, construirFilasMes, filaDelMes,
    grupoMes, kwhPorPeriodo, seleccionarMejor, pasoMejor, filaMesDe, costeTotalMes,
    costeEnergiaMes, costePotenciaMes, medianaQ, maxQ, safePct, filaMesW]
  norm_num

theorem anualW : calcularCostesAnualesPorTarifa [] [tarifaW1] 1 1
    = some [filaAnualW] := by
  simp [calcularCostesAnualesPorTarifa, clasificarRegistros, clasificarPeriodoLista,
    List.mapM, List.mapM.loop, clasificarPeriodoOpt, tarifaW1, kwhPorPeriodo,
    filaAnualDe, ordenarPorCosteTotal, List.insertionSort, List.orderedInsert,
    medianaQ, maxQ, anadirKpisAnual, safePct, filaAnualW]
  norm_num

/-- Witness for C1: the two-tariff catalog, one-record January dataset;
the selected row is the cheaper tariff B with the month's minimum total. -/
theorem c1_testigo :
    calcularMejorTarifaPorMes [regW] [tarifaW1, tarifaW2] 1 1 = some [filaMesW] ∧
    filaMesW ∈ [filaMesW] ∧
    clasificarRegistros [regW] = some [(regW, Periodo.punta_LV)] ∧
    (filaMesW.coste_total_mes
        = minQ ([tarifaW1, tarifaW2].map
            (costeMesDe [(regW, Periodo.punta_LV)] filaMesW.anio filaMesW.mes 1 1)) ∧
      ∃ tStar,
        [tarifaW1, tarifaW2].find? (fun t =>
            decide (costeMesDe [(regW, Periodo.punta_LV)] filaMesW.anio filaMesW.mes 1 1 t
              = minQ ([tarifaW1, tarifaW2].map
                  (costeMesDe [(regW, Periodo.punta_LV)] filaMesW.anio filaMesW.mes 1 1))))
          = some tStar ∧
        filaMesW.toFilaMesBase = filaMesDe filaMesW.anio filaMesW.mes
          (kwhGrupo [(regW, Periodo.punta_LV)] filaMesW.anio filaMesW.mes Periodo.punta_LV)
          (kwhGrupo [(regW, Periodo.punta_LV)] filaMesW.anio filaMesW.mes Periodo.llano_LV)
          (kwhGrupo [(regW, Periodo.punta_LV)] filaMesW.anio filaMesW.mes Periodo.valle_LV)
          (kwhGrupo [(regW, Periodo.punta_LV)] filaMesW.anio filaMesW.mes Periodo.valle_SD)
          (kwhGrupo [(regW, Periodo.punta_LV)] filaMesW.anio filaMesW.mes Periodo.punta_LV
            + kwhGrupo [(regW, Periodo.punta_LV)] filaMesW.anio filaMesW.mes Periodo.llano_LV
            + kwhGrupo [(regW, Periodo.punta_LV)] filaMesW.anio filaMesW.mes Periodo.valle_LV
            + kwhGrupo [(regW, Periodo.punta_LV)] filaMesW.anio filaMesW.mes Periodo.valle_SD)
          1 1 tStar) :=
  ⟨mesW, List.mem_cons_self filaMesW [],
   clasificarRegW,
   c1_mejor_tarifa_minimo_mensual [regW] [tarifaW1, tarifaW2] 1 1 [filaMesW] mesW
     filaMesW (List.mem_cons_self filaMesW []) [(regW, Periodo.punta_LV)] clasificarRegW⟩

/-- Witness for C3: the cost-breakdown formulas instantiated on the
one-record dataset and the single-tariff catalog. -/
theorem c3_testigo :
    clasificarRegistros [regW] = some [(regW, Periodo.punta_LV)] ∧
    ((∀ out, calcularCostesAnualesPorTarifa [regW] [tarifaW2] 1 1 = some out →
      ∀ fila ∈ out, ∃ t ∈ [tarifaW2],
        fila.comercializadora = t.comercializadora ∧ fila.tarifa = t.tarifa ∧
        fila.coste_energia_anual
          = kwhPorPeriodo [(regW, Periodo.punta_LV)] Periodo.punta_LV * t.punta_LV
            + kwhPorPeriodo [(regW, Periodo.punta_LV)] Periodo.llano_LV * t.llano_LV
            + kwhPorPeriodo [(regW, Periodo.punta_LV)] Periodo.valle_LV * t.valle_LV
            + kwhPorPeriodo [(regW, Periodo.punta_LV)] Periodo.valle_SD * t.valle_SD ∧
        fila.coste_potencia_anual
          = t.potencia_mes_valle * 1 * 12 + t.potencia_mes_punta_llano * 1 * 12 ∧
        fila.coste_total_anual
          = fila.coste_energia_anual + fila.coste_potencia_anual) ∧
    (∀ out, calcularMejorTarifaPorMes [regW] [tarifaW2] 1 1 = some out →
      ∀ fila ∈ out, ∃ t ∈ [tarifaW2],
        fila.comercializadora = t.comercializadora ∧ fila.tarifa = t.tarifa ∧
        fila.coste_energia_mes
          = kwhGrupo [(regW, Periodo.punta_LV)] fila.anio fila.mes Periodo.punta_LV
              * t.punta_LV
            + kwhGrupo [(regW, Periodo.punta_LV)] fila.anio fila.mes Periodo.llano_LV
              * t.llano_LV
            + kwhGrupo [(regW, Periodo.punta_LV)] fila.anio fila.mes Periodo.valle_LV
              * t.valle_LV
            + kwhGrupo [(regW, Periodo.punta_LV)] fila.anio fila.mes Periodo.valle_SD
              * t.valle_SD ∧
        fila.coste_potencia_mes
          = t.potencia_mes_valle * 1 * 1 + t.potencia_mes_punta_llano * 1 * 1 ∧
        fila.coste_total_mes
          = fila.coste_energia_mes + fila.coste_potencia_mes)) :=
  ⟨clasificarRegW,
   c3_desglose_costes [regW] [tarifaW2] 1 1 [(regW, Periodo.punta_LV)] clasificarRegW⟩

/-- Witness for C5: the single-record dataset lies entirely in 2024-01,
and annual and monthly per-tariff costs agree as claimed. -/
theorem c5_testigo :
    (∀ r ∈ [regW], r.anio = 2024 ∧ r.mes = 1) ∧
    clasificarRegistros [regW] = some [(regW, Periodo.punta_LV)] ∧
    ((filaAnualDe (kwhPorPeriodo [(regW, Periodo.punta_LV)] Periodo.punta_LV)
        (kwhPorPeriodo [(regW, Periodo.punta_LV)] Periodo.llano_LV)
        (kwhPorPeriodo [(regW, Periodo.punta_LV)] Periodo.valle_LV)
        (kwhPorPeriodo [(regW, Periodo.punta_LV)] Periodo.valle_SD)
        (kwhPorPeriodo [(regW, Periodo.punta_LV)] Periodo.punta_LV
          + kwhPorPeriodo [(regW, Periodo.punta_LV)] Periodo.llano_LV
          + kwhPorPeriodo [(regW, Periodo.punta_LV)] Periodo.valle_LV
          + kwhPorPeriodo [(regW, Periodo.punta_LV)] Periodo.valle_SD)
        1 1 tarifaW1).coste_energia_anual
      = (filaMesDe 2024 1 (kwhGrupo [(regW, Periodo.punta_LV)] 2024 1 Periodo.punta_LV)
          (kwhGrupo [(regW, Periodo.punta_LV)] 2024 1 Periodo.llano_LV)
          (kwhGrupo [(regW, Periodo.punta_LV)] 2024 1 Periodo.valle_LV)
          (kwhGrupo [(regW, Periodo.punta_LV)] 2024 1 Periodo.valle_SD)
          (kwhGrupo [(regW, Periodo.punta_LV)] 2024 1 Periodo.punta_LV
            + kwhGrupo [(regW, Periodo.punta_LV)] 2024 1 Periodo.llano_LV
            + kwhGrupo [(regW, Periodo.punta_LV)] 2024 1 Periodo.valle_LV
            + kwhGrupo [(regW, Periodo.punta_LV)] 2024 1 Periodo.valle_SD)
          1 1 tarifaW1).coste_energia_mes ∧
    (filaAnualDe (kwhPorPeriodo [(regW, Periodo.punta_LV)] Periodo.punta_LV)
        (kwhPorPeriodo [(regW, Periodo.punta_LV)] Periodo.llano_LV)
        (kwhPorPeriodo [(regW, Periodo.punta_LV)] Periodo.valle_LV)
        (kwhPorPeriodo [(regW, Periodo.punta_LV)] Periodo.valle_SD)
        (kwhPorPeriodo [(regW, Periodo.punta_LV)] Periodo.punta_LV
          + kwhPorPeriodo [(regW, Periodo.punta_LV)] Periodo.llano_LV
          + kwhPorPeriodo [(regW, Periodo.punta_LV)] Periodo.valle_LV
          + kwhPorPeriodo [(regW, Periodo.punta_LV)] Periodo.valle_SD)
        1 1 tarifaW1).coste_potencia_anual
      = 12 * (filaMesDe 2024 1 (kwhGrupo [(regW, Periodo.punta_LV)] 2024 1 Periodo.punta_LV)
          (kwhGrupo [(regW, Periodo.punta_LV)] 2024 1 Periodo.llano_LV)
          (kwhGrupo [(regW, Periodo.punta_LV)] 2024 1 Periodo.valle_LV)
          (kwhGrupo [(regW, Periodo.punta_LV)] 2024 1 Periodo.valle_SD)
          (kwhGrupo [(regW, Periodo.punta_LV)] 2024 1 Periodo.punta_LV
            + kwhGrupo [(regW, Periodo.punta_LV)] 2024 1 Periodo.llano_LV
            + kwhGrupo [(regW, Periodo.punta_LV)] 2024 1 Periodo.valle_LV
            + kwhGrupo [(regW, Periodo.punta_LV)] 2024 1 Periodo.valle_SD)
          1 1 tarifaW1).coste_potencia_mes) :=
  ⟨by simp [regW], clasificarRegW,
   c5_consistencia_anual_mensual [regW] 2024 1 [(regW, Periodo.punta_LV)] tarifaW1 1 1
     (by simp [regW]) clasificarRegW⟩

/-- Witness for C7: both zero-safe-division facts at concrete numbers,
and the empty-window annual row has total kWh 0 and average unit cost 0. -/
theorem c7_testigo :
    safePct 5 0 = 0 ∧
    safePct 5 4 = 100 * 5 / 4 ∧
    calcularCostesAnualesPorTarifa [] [tarifaW1] 1 1 = some [filaAnualW] ∧
    filaAnualW ∈ [filaAnualW] ∧
    filaAnualW.kwh_anuales = 0 ∧
    filaAnualW.coste_medio_eur_kwh = 0 :=
  ⟨c7_division_cero_es_cero.1 5,
   c7_division_cero_es_cero.2.1 5 4 (by norm_num),
   anualW, List.mem_cons_self filaAnualW [], rfl,
   c7_division_cero_es_cero.2.2 [] [tarifaW1] 1 1 [filaAnualW] anualW filaAnualW
     (List.mem_cons_self filaAnualW []) rfl⟩

/-- Witness for C8: the kWh partition identity on the one-record
dataset, for the annual window and for the 2024-01 group. -/
theorem c8_testigo :
    clasificarRegistros [regW] = some [(regW, Periodo.punta_LV)] ∧
    (kwhPorPeriodo [(regW, Periodo.punta_LV)] Periodo.punta_LV
        + kwhPorPeriodo [(regW, Periodo.punta_LV)] Periodo.llano_LV
        + kwhPorPeriodo [(regW, Periodo.punta_LV)] Periodo.valle_LV
        + kwhPorPeriodo [(regW, Periodo.punta_LV)] Periodo.valle_SD
      = ([regW].map (fun r => r.kwh)).sum) ∧
    (kwhGrupo [(regW, Periodo.punta_LV)] 2024 1 Periodo.punta_LV
        + kwhGrupo [(regW, Periodo.punta_LV)] 2024 1 Periodo.llano_LV
        + kwhGrupo [(regW, Periodo.punta_LV)] 2024 1 Periodo.valle_LV
        + kwhGrupo [(regW, Periodo.punta_LV)] 2024 1 Periodo.valle_SD
      = (([regW].filter (fun r => decide (r.anio = 2024 ∧ r.mes = 1))).map
          (fun r => r.kwh)).sum) :=
  ⟨clasificarRegW,
   (c8_particion_kwh [regW] [(regW, Periodo.punta_LV)] clasificarRegW).1,
   (c8_particion_kwh [regW] [(regW, Periodo.punta_LV)] clasificarRegW).2 2024 1⟩

/-- Witness for C10: the percentage-breakdown facts on the concrete
annual table (one row, nonzero total) and the empty monthly table. -/
theorem c10_testigo :
    calcularCostesAnualesPorTarifa [] [tarifaW1] 1 1 = some [filaAnualW] ∧
    calcularMejorTarifaPorMes [] [tarifaW1] 1 1 = some [] ∧
    ((∀ fila ∈ [filaAnualW],
      (fila.coste_total_anual ≠ 0 →
        fila.pct_coste_energia_anual + fila.pct_coste_potencia_anual = 100) ∧
      (fila.coste_total_anual = 0 →
        fila.pct_coste_energia_anual = 0 ∧ fila.pct_coste_potencia_anual = 0)) ∧
    (∀ fila ∈ ([] : List FilaMes),
      (fila.coste_total_mes ≠ 0 →
        fila.pct_coste_energia_mes + fila.pct_coste_potencia_mes = 100) ∧
      (fila.coste_total_mes = 0 →
        fila.pct_coste_energia_mes = 0 ∧ fila.pct_coste_potencia_mes = 0))) :=
  ⟨anualW, mesVacioW,
   c10_pct_energia_potencia [] [tarifaW1] 1 1 [filaAnualW] [] anualW mesVacioW⟩

end Tarifas
